import Mathlib

/-!
Verification of the fire/pollution correlation pipeline
(`fire_pollution_analysis.py`) against its natural-language specification.

The pipeline is embedded shallowly:

* Spark `DateType` values are integer day numbers (days since 1970-01-01),
  with `dateToDay`/`monthOfDay` the standard civil-calendar conversions.
* Nullable columns are `Option`-valued; Spark SQL three-valued logic is
  modelled by `Bool`-valued predicates in which any `none` operand makes a
  filter condition false (Spark: `NULL` comparisons yield `NULL`, and
  `filter` drops rows whose condition is not true).
* DataFrames are lists of records; a Spark inner join on a column equality
  is the cartesian product filtered by the (null-rejecting) equality.
* Double-precision trigonometry is modelled over `ℝ`; the library `acos`,
  which returns NaN outside `[-1, 1]`, is modelled as an `Option`-valued
  function that is `none` exactly outside that interval.
-/

namespace FirePollution

/-! ### Calendar arithmetic

Dates are integer day numbers (days since the epoch 1970-01-01), the
internal representation of Spark's `DateType`.  `dateToDay` and
`monthOfDay` are the standard civil-from-days / days-from-civil
conversions; integer division on `ℤ` is floor division for the positive
divisors used here. -/

/-- Day number (days since 1970-01-01) of the civil date `y-m-d`. -/
def dateToDay (y m d : ℤ) : ℤ :=
  let y' := if m ≤ 2 then y - 1 else y
  let era := y' / 400
  let yoe := y' - era * 400
  let mp := (m + 9) % 12
  let doy := (153 * mp + 2) / 5 + d - 1
  let doe := yoe * 365 + yoe / 4 - yoe / 100 + doy
  era * 146097 + doe - 719468

/-- Calendar month (1..12) of the civil date with day number `z`.
Models Spark's `month` function on a `DateType` column. -/
def monthOfDay (z : ℤ) : ℤ :=
  let z' := z + 719468
  let era := z' / 146097
  let doe := z' - era * 146097
  let yoe := (doe - doe / 1460 + doe / 36524 - doe / 146096) / 365
  let doy := doe - (365 * yoe + yoe / 4 - yoe / 100)
  let mp := (5 * doy + 2) / 153
  if mp < 10 then mp + 3 else mp - 9

/-- `true` iff `y` is a leap year in the Gregorian calendar. -/
def isLeap (y : ℤ) : Bool :=
  (y % 4 == 0 && y % 100 != 0) || (y % 400 == 0)

/-- Number of days of month `m` in year `y`. -/
def daysInMonth (y m : ℤ) : ℤ :=
  if m = 2 then (if isLeap y then 29 else 28)
  else if m = 4 ∨ m = 6 ∨ m = 9 ∨ m = 11 then 30
  else 31

/-! ### Date parsing

Modelled from the spec: the source parses date strings with Spark's
`to_date` (library code not part of the repository).  Per the spec
(§4.1, §7), a value that fails to parse yields a null date rather than
raising; the pollution `Date Local` column uses the explicit
month/day/2-digit-year pattern `M/d/yy` (two-digit years resolve into
2000-2099), the fire `DISCOVERY_DATE`/`CONT_DATE` columns use the default
`yyyy-MM-dd` pattern. -/

/-- Numeric value of a decimal digit character, `none` otherwise. -/
def digitVal (c : Char) : Option ℕ :=
  if c.isDigit then some (c.toNat - 48) else none

/-- Reads a nonempty all-digit character list as a natural number. -/
def readNat (cs : List Char) : Option ℕ :=
  match cs with
  | [] => none
  | _ =>
    cs.foldl (fun acc c => acc.bind fun n => (digitVal c).map fun d => 10 * n + d)
      (some 0)

/-- Splits a character list on a separator character. -/
def splitOnChar (sep : Char) (cs : List Char) : List (List Char) :=
  match cs with
  | [] => [[]]
  | c :: rest =>
    match splitOnChar sep rest with
    | [] => [[]]
    | g :: gs => if c = sep then [] :: g :: gs else (c :: g) :: gs

/-- Modelled from the spec: Spark `to_date(_, "M/d/yy")` on the pollution
`Date Local` column — day number on success, `none` on any parse failure. -/
def parseDateMDYY (s : String) : Option ℤ :=
  match splitOnChar ('/') s.data with
  | [ms, ds, ys] =>
    match readNat ms, readNat ds, readNat ys with
    | some m, some d, some y =>
      if ms.length ≤ 2 ∧ ds.length ≤ 2 ∧ ys.length ≤ 2 ∧
          1 ≤ m ∧ m ≤ 12 ∧ 1 ≤ d ∧ (d : ℤ) ≤ daysInMonth (2000 + y) m then
        some (dateToDay (2000 + (y : ℤ)) (m : ℤ) (d : ℤ))
      else none
    | _, _, _ => none
  | _ => none

/-- Modelled from the spec: Spark `to_date(_)` with the default
`yyyy-MM-dd` pattern, used on the fire discovery/containment dates —
day number on success, `none` on any parse failure. -/
def parseDateISO (s : String) : Option ℤ :=
  match splitOnChar ('-') s.data with
  | [ys, ms, ds] =>
    match readNat ys, readNat ms, readNat ds with
    | some y, some m, some d =>
      if ys.length = 4 ∧ ms.length ≤ 2 ∧ ds.length ≤ 2 ∧
          1 ≤ m ∧ m ≤ 12 ∧ 1 ≤ d ∧ (d : ℤ) ≤ daysInMonth (y : ℤ) m then
        some (dateToDay (y : ℤ) (m : ℤ) (d : ℤ))
      else none
    | _, _, _ => none
  | _ => none

/-! ### Records

Row types for the two inputs and the joined output.  Column names follow
the source; Spark's nullable columns are `Option`-valued.  The raw fire
`start_date` column is already date-typed when first used (line 84 of the
source applies `INTERVAL` arithmetic to it), so it is modelled as an
optional day number from the start; the explicit `to_date` recast at
line 117 is the identity on it. -/

/-- A raw fire CSV row (columns used by the pipeline). -/
structure RawFireRow where
  c0 : Option ℤ
  STATE : Option String
  COUNTY : Option String
  FIRE_YEAR : Option ℤ
  start_date : Option ℤ
  LATITUDE : Option ℝ
  LONGITUDE : Option ℝ
  DISCOVERY_DATE : Option String
  CONT_DATE : Option String

/-- A preprocessed fire row (state normalized, columns renamed,
discovery/containment dates parsed). -/
structure FireRow where
  Fire_ID : Option ℤ
  Fire_State : Option String
  Fire_County : Option String
  FIRE_YEAR : Option ℤ
  start_date : Option ℤ
  LATITUDE : Option ℝ
  LONGITUDE : Option ℝ
  DISCOVERY_DATE : Option ℤ
  CONT_DATE : Option ℤ

/-- A raw pollution CSV row (columns used by the pipeline);
`Date_Local_str` is the raw `Date Local` string column. -/
structure RawPolRow where
  Date_Local_str : Option String
  State : Option String
  Final_Latitude : Option ℝ
  Final_Longitude : Option ℝ
  CO_AQI : Option ℝ
  SO2_AQI : Option ℝ

/-- A preprocessed pollution row (`Date_Local` parsed from `Date Local`). -/
structure PolRow where
  State : Option String
  Date_Local : Option ℤ
  Final_Latitude : Option ℝ
  Final_Longitude : Option ℝ
  CO_AQI : Option ℝ
  SO2_AQI : Option ℝ

/-- A joined row after the `distance_miles` column is added
(source line 106). -/
structure JRow where
  fire : FireRow
  pol : PolRow
  distance_miles : Option ℝ

/-- A joined row after the derived columns `date_diff_fire_pollution` and
`FIRE_MONTH` are added (source lines 117-120). -/
structure DRow where
  fire : FireRow
  pol : PolRow
  distance_miles : Option ℝ
  date_diff_fire_pollution : Option ℤ
  FIRE_MONTH : Option ℤ

/-! ### Normalizer (source lines 54-75) -/

/-- One step of the state-normalization loop:
`when(col("STATE") == abbrev, full).otherwise(col("STATE"))`.
A null state fails the `when` condition and is passed through unchanged
(still null). -/
def whenStateEq (s : Option String) (ab full : String) : Option String :=
  match s with
  | none => none
  | some v => if v = ab then some full else some v

/-- The fire-side Normalizer: applies the `state_mapping` loop
(`CA → California` then `AZ → Arizona`), renames `_c0 → Fire_ID`,
`STATE → Fire_State`, `COUNTY → Fire_County`, and parses the
discovery/containment dates. -/
def prepFireRow (r : RawFireRow) : FireRow :=
  { Fire_ID := r.c0
    Fire_State := whenStateEq (whenStateEq r.STATE ("CA") ("California")) ("AZ") ("Arizona")
    Fire_County := r.COUNTY
    FIRE_YEAR := r.FIRE_YEAR
    start_date := r.start_date
    LATITUDE := r.LATITUDE
    LONGITUDE := r.LONGITUDE
    DISCOVERY_DATE := r.DISCOVERY_DATE.bind parseDateISO
    CONT_DATE := r.CONT_DATE.bind parseDateISO }

/-- `df_fires` after preprocessing (source lines 64-75). -/
def prepFires (rows : List RawFireRow) : List FireRow :=
  rows.map prepFireRow

/-- The pollution-side column step: parses `Date Local` with the
`M/d/yy` pattern into `Date_Local` (source lines 54-56). -/
def prepPolRow (r : RawPolRow) : PolRow :=
  { State := r.State
    Date_Local := r.Date_Local_str.bind parseDateMDYY
    Final_Latitude := r.Final_Latitude
    Final_Longitude := r.Final_Longitude
    CO_AQI := r.CO_AQI
    SO2_AQI := r.SO2_AQI }

/-- `dropna(subset=['Final_Latitude', 'Final_Longitude'])` predicate. -/
def latLonPresentB (r : PolRow) : Bool :=
  r.Final_Latitude.isSome && r.Final_Longitude.isSome

/-- `col("State").isin(['Arizona', 'California'])` under SQL null
semantics: a null state yields null, hence the row is dropped. -/
def stateAllowedB (r : PolRow) : Bool :=
  match r.State with
  | some s => s == "Arizona" || s == "California"
  | none => false

/-- `df_pollution` after preprocessing (source lines 54-59): date parse,
coordinate `dropna`, then the state allow-list filter. -/
def prepPollution (rows : List RawPolRow) : List PolRow :=
  ((rows.map prepPolRow).filter latLonPresentB).filter stateAllowedB

/-! ### Correlator (source lines 80-86) -/

/-- The join condition `df_fires["Fire_State"] == df_pollution["State"]`
under SQL null semantics: null on either side never matches. -/
def stateEqB (a b : Option String) : Bool :=
  match a, b with
  | some x, some y => x == y
  | _, _ => false

/-- The ±7-day window condition of source lines 83-86:
`Date_Local >= start_date - 7 AND Date_Local <= start_date + 7`,
null on either side never satisfying the comparison. -/
def windowB (sd ld : Option ℤ) : Bool :=
  match sd, ld with
  | some s, some l => decide (s - 7 ≤ l) && decide (l ≤ s + 7)
  | _, _ => false

/-- `df_joined` (source line 80): the inner equality join on state,
i.e. the cartesian product restricted to matching states. -/
def joinOnState (fires : List FireRow) (pols : List PolRow) :
    List (FireRow × PolRow) :=
  (List.product fires pols).filter fun fp => stateEqB fp.1.Fire_State fp.2.State

/-- `df_filtered` (source lines 83-86): the joined rows restricted to the
±7-day window. -/
def correlate (fires : List FireRow) (pols : List PolRow) :
    List (FireRow × PolRow) :=
  (joinOnState fires pols).filter fun fp => windowB fp.1.start_date fp.2.Date_Local

/-! ### DistanceFilter (source lines 91-111)

The trigonometry is over `ℝ`.  The library `acos` applied to an argument
outside `[-1, 1]` produces NaN; NaN is modelled as `none` (a NaN
distance, like a null one, fails the `< 20` comparison and the row is
dropped, which coincides with Spark's treatment of both). -/

/-- `F.radians`: degrees to radians. -/
noncomputable def radians (x : ℝ) : ℝ := x * Real.pi / 180

/-- The cosine-sum argument of the spherical-law-of-cosines formula
(the argument of `F.acos` at source lines 97-101). -/
noncomputable def havArg (lat1 lon1 lat2 lon2 : ℝ) : ℝ :=
  Real.sin (radians lat1) * Real.sin (radians lat2) +
    Real.cos (radians lat1) * Real.cos (radians lat2) *
      Real.cos (radians (lon2 - lon1))

/-- The library `acos` on doubles: defined on `[-1, 1]`, NaN (here
`none`) outside.  The source applies it to the cosine sum unclamped. -/
noncomputable def acosDomOpt (x : ℝ) : Option ℝ :=
  if -1 ≤ x ∧ x ≤ 1 then some (Real.arccos x) else none

/-- Modelled from the spec: the clamp of the cosine-sum argument to
`[-1, 1]` that §4.3/§9 require of a robust implementation and that the
source `haversine` does not perform. -/
noncomputable def clampAcosArg (x : ℝ) : ℝ :=
  max (-1) (min 1 x)

/-- The source `haversine` function (lines 91-101): Earth radius 3958.8
miles, all trigonometric arguments converted from degrees to radians,
`acos` applied to the unclamped cosine sum. -/
noncomputable def haversine (lat1 lon1 lat2 lon2 : ℝ) : Option ℝ :=
  (acosDomOpt (havArg lat1 lon1 lat2 lon2)).map fun a => a * 3958.8

/-- `withColumn("distance_miles", haversine(...))` (source lines
106-109): a null coordinate on either side propagates to a null
distance. -/
noncomputable def addDistRow (fp : FireRow × PolRow) : JRow :=
  { fire := fp.1
    pol := fp.2
    distance_miles :=
      match fp.1.LATITUDE, fp.1.LONGITUDE, fp.2.Final_Latitude, fp.2.Final_Longitude with
      | some la, some lo, some pa, some po => haversine la lo pa po
      | _, _, _, _ => none }

/-- The retention condition `F.col("distance_miles") < 20` (source line
111): strict, and false for a null (or NaN) distance. -/
noncomputable def distLtB (d : Option ℝ) : Bool :=
  match d with
  | some v => decide (v < 20)
  | none => false

/-- `filtered_df_20` before the AQI drop (source line 111). -/
noncomputable def distFilter (rows : List JRow) : List JRow :=
  rows.filter fun r => distLtB r.distance_miles

/-! ### QualityFilter (source lines 112-128) -/

/-- `na.drop(how='any', subset=['CO AQI', 'SO2 AQI'])` predicate: the row
survives iff both required AQI measurements are present. -/
def aqiB (r : JRow) : Bool :=
  r.pol.CO_AQI.isSome && r.pol.SO2_AQI.isSome

/-- The AQI completeness drop (source line 112). -/
noncomputable def aqiFilter (rows : List JRow) : List JRow :=
  rows.filter aqiB

/-- The derivation step (source lines 117-120): the `to_date` recasts of
the already-date-typed `start_date`/`Date_Local` are the identity;
`date_diff_fire_pollution = datediff(Date_Local, start_date)` and
`FIRE_MONTH = month(start_date)`, both null when an operand is null. -/
def deriveRow (j : JRow) : DRow :=
  { fire := j.fire
    pol := j.pol
    distance_miles := j.distance_miles
    date_diff_fire_pollution :=
      match j.pol.Date_Local, j.fire.start_date with
      | some ld, some sd => some (ld - sd)
      | _, _ => none
    FIRE_MONTH := j.fire.start_date.map monthOfDay }

/-- `FIRE_YEAR.between(2008, 2014)` (source line 125): inclusive on both
ends, false for a null year. -/
def yearB (y : Option ℤ) : Bool :=
  match y with
  | some v => decide (2008 ≤ v) && decide (v ≤ 2014)
  | none => false

/-- The fire-year range filter (source line 125). -/
def yearFilter (rows : List DRow) : List DRow :=
  rows.filter fun r => yearB r.fire.FIRE_YEAR

/-- `start_date >= '2014-05-02' AND start_date <= '2014-06-02'` (source
lines 126-128): inclusive on both ends, false for a null date. -/
def dateRangeB (sd : Option ℤ) : Bool :=
  match sd with
  | some v => decide (dateToDay 2014 5 2 ≤ v) && decide (v ≤ dateToDay 2014 6 2)
  | none => false

/-- The fire start-date range filter (source lines 126-128). -/
def dateRangeFilter (rows : List DRow) : List DRow :=
  rows.filter fun r => dateRangeB r.fire.start_date

/-! ### The whole pipeline (source lines 54-128) -/

/-- The full transformation from the two raw inputs to the row set
written to Parquet: preprocessing, state join, date window, distance
column and filter, AQI drop, derivations, year and date-range filters. -/
noncomputable def pipeline (rawFires : List RawFireRow) (rawPols : List RawPolRow) :
    List DRow :=
  dateRangeFilter (yearFilter
    ((aqiFilter (distFilter
      ((correlate (prepFires rawFires) (prepPollution rawPols)).map addDistRow))).map
        deriveRow))

/-! ### Characterizations of the filter conditions -/

lemma whenStateEq_some (v ab full : String) :
    whenStateEq (some v) ab full = some (if v = ab then full else v) := by
  show (if v = ab then some full else some v) = some (if v = ab then full else v)
  by_cases h : v = ab
  · rw [if_pos h, if_pos h]
  · rw [if_neg h, if_neg h]

lemma stateEqB_eq_true_iff (a b : Option String) :
    stateEqB a b = true ↔ ∃ s, a = some s ∧ b = some s := by
  cases a <;> cases b <;> simp [stateEqB]
  exact eq_comm

lemma windowB_eq_true_iff (sd ld : Option ℤ) :
    windowB sd ld = true ↔
      ∃ s l, sd = some s ∧ ld = some l ∧ s - 7 ≤ l ∧ l ≤ s + 7 := by
  cases sd <;> cases ld <;> simp [windowB]

lemma distLtB_eq_true_iff (d : Option ℝ) :
    distLtB d = true ↔ ∃ v, d = some v ∧ v < 20 := by
  cases d <;> simp [distLtB]

lemma aqiB_eq_true_iff (r : JRow) :
    aqiB r = true ↔ r.pol.CO_AQI.isSome = true ∧ r.pol.SO2_AQI.isSome = true := by
  simp [aqiB]

lemma yearB_eq_true_iff (y : Option ℤ) :
    yearB y = true ↔ ∃ v, y = some v ∧ 2008 ≤ v ∧ v ≤ 2014 := by
  cases y <;> simp [yearB]

lemma dateRangeB_eq_true_iff (sd : Option ℤ) :
    dateRangeB sd = true ↔
      ∃ v, sd = some v ∧ dateToDay 2014 5 2 ≤ v ∧ v ≤ dateToDay 2014 6 2 := by
  cases sd <;> simp [dateRangeB]

lemma stateAllowedB_eq_true_iff (r : PolRow) :
    stateAllowedB r = true ↔
      ∃ s, r.State = some s ∧ (s = "Arizona" ∨ s = "California") := by
  cases h : r.State <;> simp [stateAllowedB, h]

/-! ### The cosine sum always lies in the domain of `acos` over `ℝ`

In exact real arithmetic the spherical-law-of-cosines argument is the
cosine of the central angle, hence always in `[-1, 1]`; the out-of-domain
hazard of the source is purely a floating-point rounding phenomenon. -/

lemma cosSum_bounds (p q r : ℝ) :
    -1 ≤ Real.sin p * Real.sin q + Real.cos p * Real.cos q * Real.cos r ∧
      Real.sin p * Real.sin q + Real.cos p * Real.cos q * Real.cos r ≤ 1 := by
  have hr1 := Real.neg_one_le_cos r
  have hr2 := Real.cos_le_one r
  have hpq1 := Real.neg_one_le_cos (p - q)
  have hpq2 := Real.cos_le_one (p - q)
  have hpq3 := Real.neg_one_le_cos (p + q)
  have hpq4 := Real.cos_le_one (p + q)
  rw [Real.cos_sub] at hpq1 hpq2
  rw [Real.cos_add] at hpq3 hpq4
  rcases le_or_lt 0 (Real.cos p * Real.cos q) with hB | hB
  · have h1 : 0 ≤ Real.cos p * Real.cos q * (1 - Real.cos r) :=
      mul_nonneg hB (by linarith)
    have h2 : 0 ≤ Real.cos p * Real.cos q * (Real.cos r + 1) :=
      mul_nonneg hB (by linarith)
    constructor <;> nlinarith
  · have h1 : Real.cos p * Real.cos q * (1 - Real.cos r) ≤ 0 :=
      mul_nonpos_of_nonpos_of_nonneg hB.le (by linarith)
    have h2 : Real.cos p * Real.cos q * (Real.cos r + 1) ≤ 0 :=
      mul_nonpos_of_nonpos_of_nonneg hB.le (by linarith)
    constructor <;> nlinarith

lemma havArg_mem (lat1 lon1 lat2 lon2 : ℝ) :
    -1 ≤ havArg lat1 lon1 lat2 lon2 ∧ havArg lat1 lon1 lat2 lon2 ≤ 1 :=
  cosSum_bounds _ _ _

lemma haversine_eq_some (lat1 lon1 lat2 lon2 : ℝ) :
    haversine lat1 lon1 lat2 lon2 =
      some (Real.arccos (havArg lat1 lon1 lat2 lon2) * 3958.8) := by
  unfold haversine acosDomOpt
  rw [if_pos (havArg_mem lat1 lon1 lat2 lon2)]
  rfl

lemma havArg_self (a b : ℝ) : havArg a b a b = 1 := by
  unfold havArg radians
  rw [sub_self, zero_mul, zero_div, Real.cos_zero, mul_one,
    ← Real.sin_sq_add_cos_sq (a * Real.pi / 180)]
  ring

lemma haversine_self (a b : ℝ) : haversine a b a b = some 0 := by
  rw [haversine_eq_some, havArg_self, Real.arccos_one, zero_mul]

/-! ### Membership in the stages and in the whole pipeline -/

lemma mem_prepPollution_iff (rows : List RawPolRow) (p : PolRow) :
    p ∈ prepPollution rows ↔
      ∃ p0, p0 ∈ rows ∧ p = prepPolRow p0 ∧
        latLonPresentB p = true ∧ stateAllowedB p = true := by
  constructor
  · intro h
    obtain ⟨h, h2⟩ := List.mem_filter.mp h
    obtain ⟨h, h1⟩ := List.mem_filter.mp h
    obtain ⟨p0, hp0, heq⟩ := List.mem_map.mp h
    exact ⟨p0, hp0, heq.symm, h1, h2⟩
  · rintro ⟨p0, hp0, rfl, h1, h2⟩
    exact List.mem_filter.mpr
      ⟨List.mem_filter.mpr ⟨List.mem_map.mpr ⟨p0, hp0, rfl⟩, h1⟩, h2⟩

lemma mem_pipeline_iff (rf : List RawFireRow) (rp : List RawPolRow) (r : DRow) :
    r ∈ pipeline rf rp ↔
      ∃ f p, f ∈ rf ∧ p ∈ rp ∧
        latLonPresentB (prepPolRow p) = true ∧
        stateAllowedB (prepPolRow p) = true ∧
        stateEqB (prepFireRow f).Fire_State (prepPolRow p).State = true ∧
        windowB (prepFireRow f).start_date (prepPolRow p).Date_Local = true ∧
        distLtB (addDistRow (prepFireRow f, prepPolRow p)).distance_miles = true ∧
        aqiB (addDistRow (prepFireRow f, prepPolRow p)) = true ∧
        yearB (prepFireRow f).FIRE_YEAR = true ∧
        dateRangeB (prepFireRow f).start_date = true ∧
        r = deriveRow (addDistRow (prepFireRow f, prepPolRow p)) := by
  constructor
  · intro h
    obtain ⟨h, hdr⟩ := List.mem_filter.mp h
    obtain ⟨h, hy⟩ := List.mem_filter.mp h
    obtain ⟨j, hj, rfl⟩ := List.mem_map.mp h
    obtain ⟨hj, haq⟩ := List.mem_filter.mp hj
    obtain ⟨hj, hd⟩ := List.mem_filter.mp hj
    obtain ⟨fp, hfp, rfl⟩ := List.mem_map.mp hj
    obtain ⟨hfp, hw⟩ := List.mem_filter.mp hfp
    obtain ⟨hfp, hs⟩ := List.mem_filter.mp hfp
    obtain ⟨f1, p1⟩ := fp
    rw [List.pair_mem_product] at hfp
    obtain ⟨hf1, hp1⟩ := hfp
    obtain ⟨f, hf, rfl⟩ := List.mem_map.mp hf1
    obtain ⟨p0, hp0, hp0eq, hll, hal⟩ := (mem_prepPollution_iff rp p1).mp hp1
    subst hp0eq
    exact ⟨f, p0, hf, hp0, hll, hal, hs, hw, hd, haq, hy, hdr, rfl⟩
  · rintro ⟨f, p, hf, hp, hll, hal, hs, hw, hd, haq, hy, hdr, rfl⟩
    refine List.mem_filter.mpr ⟨List.mem_filter.mpr ⟨?_, hy⟩, hdr⟩
    refine List.mem_map.mpr ⟨addDistRow (prepFireRow f, prepPolRow p), ?_, rfl⟩
    refine List.mem_filter.mpr ⟨List.mem_filter.mpr ⟨?_, hd⟩, haq⟩
    refine List.mem_map.mpr ⟨(prepFireRow f, prepPolRow p), ?_, rfl⟩
    refine List.mem_filter.mpr ⟨List.mem_filter.mpr ⟨?_, hs⟩, hw⟩
    rw [List.pair_mem_product]
    exact ⟨List.mem_map.mpr ⟨f, hf, rfl⟩,
      (mem_prepPollution_iff rp (prepPolRow p)).mpr ⟨p, hp, rfl, hll, hal⟩⟩

/-! ### A concrete run (the spec §8 scenario, with coinciding coordinates)

A California fire starting 2014-05-10 and a California pollution reading
of 2014-05-12 at the fire's location with both AQI values present: the
pair survives every filter. -/

/-- Concrete scenario fire row: state abbreviation `CA`, fire year 2014,
start date 2014-05-10 (day 16200), location (34, -118). -/
noncomputable def fire0 : RawFireRow :=
  { c0 := some 1
    STATE := some ("CA")
    COUNTY := some ("Los Angeles")
    FIRE_YEAR := some 2014
    start_date := some (dateToDay 2014 5 10)
    LATITUDE := some 34
    LONGITUDE := some (-118)
    DISCOVERY_DATE := none
    CONT_DATE := none }

/-- Concrete scenario pollution row: California reading dated `5/12/14`
at (34, -118), CO AQI 5, SO2 AQI 2. -/
noncomputable def pol0 : RawPolRow :=
  { Date_Local_str := some ("5/12/14")
    State := some ("California")
    Final_Latitude := some 34
    Final_Longitude := some (-118)
    CO_AQI := some 5
    SO2_AQI := some 2 }

/-- The scenario pair as a joined row with its distance column. -/
noncomputable def jrow0 : JRow :=
  addDistRow (prepFireRow fire0, prepPolRow pol0)

/-- The scenario pair as a final output row. -/
noncomputable def out0 : DRow := deriveRow jrow0

lemma out0_distance : jrow0.distance_miles = some 0 := by
  show haversine 34 (-118) 34 (-118) = some 0
  exact haversine_self 34 (-118)

lemma out0_mem : out0 ∈ pipeline [fire0] [pol0] := by
  refine (mem_pipeline_iff [fire0] [pol0] out0).mpr
    ⟨fire0, pol0, List.mem_singleton.mpr rfl, List.mem_singleton.mpr rfl,
      rfl, rfl, rfl, rfl, ?_, rfl, rfl, rfl, rfl⟩
  show distLtB jrow0.distance_miles = true
  rw [out0_distance]
  exact decide_eq_true (by norm_num)

/-! ### Claim theorems -/

/-- C1: the source's distance computation does not clamp the cosine-sum
argument before `acos`.  The library `acos` it relies on (modelled by
`acosDomOpt`) is NaN (`none`) as soon as the argument exceeds 1 — as
double rounding can make the cosine sum do for identical points — while
the clamp required by the spec maps the same argument to 1, whose
`arccos` is the numeric result 0. -/
theorem acos_unclamped_nan_vs_clamped_zero :
    acosDomOpt (1 + 1 / 2 ^ 52) = none ∧
      Real.arccos (clampAcosArg (1 + 1 / 2 ^ 52)) = 0 := by
  constructor
  · have hx : ¬((-1 : ℝ) ≤ 1 + 1 / 2 ^ 52 ∧ (1 : ℝ) + 1 / 2 ^ 52 ≤ 1) := by
      rintro ⟨-, h⟩
      norm_num at h
    unfold acosDomOpt
    rw [if_neg hx]
  · have h1 : (1 : ℝ) ≤ 1 + 1 / 2 ^ 52 := by norm_num
    unfold clampAcosArg
    rw [min_eq_left h1, max_eq_right (by norm_num : (-1 : ℝ) ≤ 1), Real.arccos_one]

/-- C2: the Correlator yields exactly the (fire, pollution) pairs with
equal (non-null) states whose pollution date lies within the closed
±7-day window around the fire start date; it is the cartesian product
filtered by these two conditions, so every qualifying pair contributes
exactly one row (no deduplication). -/
theorem correlate_spec :
    (∀ (fires : List FireRow) (pols : List PolRow) (fp : FireRow × PolRow),
        fp ∈ correlate fires pols ↔
          fp.1 ∈ fires ∧ fp.2 ∈ pols ∧
            (∃ s, fp.1.Fire_State = some s ∧ fp.2.State = some s) ∧
            ∃ sd ld, fp.1.start_date = some sd ∧ fp.2.Date_Local = some ld ∧
              (ld - sd).natAbs ≤ 7) ∧
      ∀ (fires : List FireRow) (pols : List PolRow),
        correlate fires pols =
          (List.product fires pols).filter fun fp =>
            stateEqB fp.1.Fire_State fp.2.State &&
              windowB fp.1.start_date fp.2.Date_Local := by
  constructor
  · intro fires pols fp
    constructor
    · intro h
      obtain ⟨h, hw⟩ := List.mem_filter.mp h
      obtain ⟨h, hs⟩ := List.mem_filter.mp h
      obtain ⟨f, p⟩ := fp
      rw [List.pair_mem_product] at h
      obtain ⟨s, hs1, hs2⟩ := (stateEqB_eq_true_iff _ _).mp hs
      obtain ⟨sd, ld, h1, h2, h3, h4⟩ := (windowB_eq_true_iff _ _).mp hw
      exact ⟨h.1, h.2, ⟨s, hs1, hs2⟩, sd, ld, h1, h2, by omega⟩
    · rintro ⟨h1, h2, ⟨s, hs1, hs2⟩, sd, ld, hd1, hd2, hd3⟩
      refine List.mem_filter.mpr ⟨List.mem_filter.mpr ⟨?_, ?_⟩, ?_⟩
      · obtain ⟨f, p⟩ := fp
        exact List.pair_mem_product.mpr ⟨h1, h2⟩
      · exact (stateEqB_eq_true_iff _ _).mpr ⟨s, hs1, hs2⟩
      · exact (windowB_eq_true_iff _ _).mpr ⟨sd, ld, hd1, hd2, by omega, by omega⟩
  · intro fires pols
    unfold correlate joinOnState
    rw [List.filter_filter]
    congr 1
    funext fp
    exact Bool.and_comm _ _

/-- C4: the fire-side Normalizer maps `CA` to `California`, `AZ` to
`Arizona`, leaves every other state value (null included) unchanged, and
renames `STATE` to `Fire_State`, `COUNTY` to `Fire_County`, `_c0` to
`Fire_ID`. -/
theorem normalizer_spec (r : RawFireRow) :
    (prepFireRow r).Fire_State =
        r.STATE.map (fun v =>
          if v = "CA" then "California" else if v = "AZ" then "Arizona" else v) ∧
      (prepFireRow r).Fire_County = r.COUNTY ∧
      (prepFireRow r).Fire_ID = r.c0 := by
  refine ⟨?_, rfl, rfl⟩
  show whenStateEq (whenStateEq r.STATE ("CA") ("California")) ("AZ") ("Arizona") = _
  cases h : r.STATE with
  | none => rfl
  | some v =>
    rw [whenStateEq_some, whenStateEq_some, Option.map_some']
    by_cases hca : v = "CA"
    · subst hca
      rw [if_pos rfl]
      rw [if_neg (by decide : ¬("California" : String) = "AZ")]
      rw [if_pos rfl]
    · rw [if_neg hca]
      rw [if_neg hca]

/-- C8: the distance function is symmetric in its two coordinate
pairs. -/
theorem haversine_symm (lat1 lon1 lat2 lon2 : ℝ) :
    haversine lat1 lon1 lat2 lon2 = haversine lat2 lon2 lat1 lon1 := by
  have harg : havArg lat1 lon1 lat2 lon2 = havArg lat2 lon2 lat1 lon1 := by
    unfold havArg
    have hr : radians (lon1 - lon2) = -radians (lon2 - lon1) := by
      unfold radians
      ring
    rw [hr, Real.cos_neg]
    ring
  unfold haversine
  rw [harg]

/-- C3: a joined row survives the DistanceFilter iff its distance column
holds a value strictly below 20 miles (so rows with distance ≥ 20 and
rows with a null distance are dropped), and on present coordinates the
distance column is the spherical-law-of-cosines formula with Earth
radius 3958.8 miles over degree-to-radian-converted arguments. -/
theorem distance_filter_spec :
    (∀ (rows : List JRow) (r : JRow),
        r ∈ distFilter rows ↔
          r ∈ rows ∧ ∃ d, r.distance_miles = some d ∧ d < 20) ∧
      ∀ (fp : FireRow × PolRow) (la lo pa po : ℝ),
        fp.1.LATITUDE = some la → fp.1.LONGITUDE = some lo →
          fp.2.Final_Latitude = some pa → fp.2.Final_Longitude = some po →
            (addDistRow fp).distance_miles =
              some (Real.arccos
                (Real.sin (radians la) * Real.sin (radians pa) +
                  Real.cos (radians la) * Real.cos (radians pa) *
                    Real.cos (radians (po - lo))) * 3958.8) := by
  constructor
  · intro rows r
    constructor
    · intro h
      obtain ⟨h1, h2⟩ := List.mem_filter.mp h
      exact ⟨h1, (distLtB_eq_true_iff _).mp h2⟩
    · rintro ⟨h1, h2⟩
      exact List.mem_filter.mpr ⟨h1, (distLtB_eq_true_iff _).mpr h2⟩
  · intro fp la lo pa po h1 h2 h3 h4
    have hm : (addDistRow fp).distance_miles = haversine la lo pa po := by
      simp only [addDistRow, h1, h2, h3, h4]
    rw [hm, haversine_eq_some]
    rfl

/-- C5: the QualityFilter keeps a row iff both the CO AQI and the SO2 AQI
measurement are present (drop-if-any-missing), and consequently both are
present on every row of the final output. -/
theorem aqi_filter_spec :
    (∀ (rows : List JRow) (r : JRow),
        r ∈ aqiFilter rows ↔
          r ∈ rows ∧ r.pol.CO_AQI.isSome = true ∧ r.pol.SO2_AQI.isSome = true) ∧
      ∀ (rf : List RawFireRow) (rp : List RawPolRow) (r : DRow),
        r ∈ pipeline rf rp →
          r.pol.CO_AQI.isSome = true ∧ r.pol.SO2_AQI.isSome = true := by
  constructor
  · intro rows r
    rw [aqiFilter, List.mem_filter, aqiB_eq_true_iff]
  · intro rf rp r h
    obtain ⟨f, p, hf, hp, hll, hal, hs, hw, hd, haq, hy, hdr, rfl⟩ :=
      (mem_pipeline_iff rf rp r).mp h
    exact (aqiB_eq_true_iff _).mp haq

/-- C6: the year filter keeps a row iff its fire year lies in the
inclusive range [2008, 2014], the date filter keeps a row iff its fire
start date lies in the inclusive range [2014-05-02, 2014-06-02], both
filters are applied, and hence every final output row satisfies both
restrictions. -/
theorem year_date_range_spec :
    (∀ (rows : List DRow) (r : DRow),
        r ∈ yearFilter rows ↔
          r ∈ rows ∧ ∃ y, r.fire.FIRE_YEAR = some y ∧ 2008 ≤ y ∧ y ≤ 2014) ∧
      (∀ (rows : List DRow) (r : DRow),
        r ∈ dateRangeFilter rows ↔
          r ∈ rows ∧ ∃ sd, r.fire.start_date = some sd ∧
            dateToDay 2014 5 2 ≤ sd ∧ sd ≤ dateToDay 2014 6 2) ∧
      ∀ (rf : List RawFireRow) (rp : List RawPolRow) (r : DRow),
        r ∈ pipeline rf rp →
          (∃ y, r.fire.FIRE_YEAR = some y ∧ 2008 ≤ y ∧ y ≤ 2014) ∧
            ∃ sd, r.fire.start_date = some sd ∧
              dateToDay 2014 5 2 ≤ sd ∧ sd ≤ dateToDay 2014 6 2 := by
  refine ⟨?_, ?_, ?_⟩
  · intro rows r
    rw [yearFilter, List.mem_filter, yearB_eq_true_iff]
  · intro rows r
    rw [dateRangeFilter, List.mem_filter, dateRangeB_eq_true_iff]
  · intro rf rp r h
    obtain ⟨f, p, hf, hp, hll, hal, hs, hw, hd, haq, hy, hdr, rfl⟩ :=
      (mem_pipeline_iff rf rp r).mp h
    exact ⟨(yearB_eq_true_iff _).mp hy, (dateRangeB_eq_true_iff _).mp hdr⟩

/-- C7: on rows reaching the derivation step with both dates present,
`date_diff_fire_pollution` is the signed day difference of the pollution
date minus the fire start date — positive exactly when the reading
follows the fire start, negative exactly when it precedes it — and
`FIRE_MONTH` is the calendar month of the start date. -/
theorem derive_spec (j : JRow) (sd ld : ℤ)
    (hsd : j.fire.start_date = some sd) (hld : j.pol.Date_Local = some ld) :
    (deriveRow j).date_diff_fire_pollution = some (ld - sd) ∧
      (0 < ld - sd ↔ sd < ld) ∧
      (ld - sd < 0 ↔ ld < sd) ∧
      (deriveRow j).FIRE_MONTH = some (monthOfDay sd) := by
  refine ⟨?_, sub_pos, sub_neg, ?_⟩
  · show (match j.pol.Date_Local, j.fire.start_date with
      | some ld, some sd => some (ld - sd)
      | _, _ => none) = some (ld - sd)
    rw [hsd, hld]
  · show j.fire.start_date.map monthOfDay = some (monthOfDay sd)
    rw [hsd, Option.map_some']

/-- C9: a date string that fails to parse becomes a null date (rather
than an error), and a pair with a null fire start date or a null
pollution local date never satisfies the window condition, so it is
excluded from the Correlator's output. -/
theorem null_dates_never_join :
    (∀ (r : RawPolRow) (s : String), r.Date_Local_str = some s →
        parseDateMDYY s = none → (prepPolRow r).Date_Local = none) ∧
      ∀ (fires : List FireRow) (pols : List PolRow) (f : FireRow) (p : PolRow),
        f.start_date = none ∨ p.Date_Local = none →
          (f, p) ∉ correlate fires pols := by
  constructor
  · intro r s hs hp
    show r.Date_Local_str.bind parseDateMDYY = none
    rw [hs]
    exact hp
  · intro fires pols f p hnull hmem
    obtain ⟨hmem, hw⟩ := List.mem_filter.mp hmem
    obtain ⟨sd, ld, h1, h2, -, -⟩ := (windowB_eq_true_iff _ _).mp hw
    have h1' : f.start_date = some sd := h1
    have h2' : p.Date_Local = some ld := h2
    cases hnull with
    | inl h => rw [h] at h1'; exact Option.noConfusion h1'
    | inr h => rw [h] at h2'; exact Option.noConfusion h2'

/-- C10: every final output row carries equal non-null fire and pollution
state values, and that shared value is Arizona or California. -/
theorem output_state_invariant (rf : List RawFireRow) (rp : List RawPolRow)
    (r : DRow) (h : r ∈ pipeline rf rp) :
    ∃ s, r.fire.Fire_State = some s ∧ r.pol.State = some s ∧
      (s = "Arizona" ∨ s = "California") := by
  obtain ⟨f, p, hf, hp, hll, hal, hs, hw, hd, haq, hy, hdr, rfl⟩ :=
    (mem_pipeline_iff rf rp r).mp h
  obtain ⟨s, hs1, hs2⟩ := (stateEqB_eq_true_iff _ _).mp hs
  obtain ⟨s', hal1, hal2⟩ := (stateAllowedB_eq_true_iff _).mp hal
  rw [hs2] at hal1
  injection hal1 with hss
  subst hss
  exact ⟨s, hs1, hs2, hal2⟩

/-! ### Witnesses -/

/-- C3 witness: the concrete scenario pair, whose coordinates coincide,
gets the law-of-cosines distance value. -/
theorem distance_filter_spec_witness :
    (addDistRow (prepFireRow fire0, prepPolRow pol0)).distance_miles =
      some (Real.arccos
        (Real.sin (radians 34) * Real.sin (radians 34) +
          Real.cos (radians 34) * Real.cos (radians 34) *
            Real.cos (radians ((-118) - (-118)))) * 3958.8) :=
  distance_filter_spec.2 (prepFireRow fire0, prepPolRow pol0) 34 (-118) 34 (-118)
    rfl rfl rfl rfl

/-- C5 witness: the concrete scenario output row has both AQI values. -/
theorem aqi_filter_spec_witness :
    out0.pol.CO_AQI.isSome = true ∧ out0.pol.SO2_AQI.isSome = true :=
  aqi_filter_spec.2 [fire0] [pol0] out0 out0_mem

/-- C6 witness: the concrete scenario output row passes both range
restrictions. -/
theorem year_date_range_spec_witness :
    (∃ y, out0.fire.FIRE_YEAR = some y ∧ 2008 ≤ y ∧ y ≤ 2014) ∧
      ∃ sd, out0.fire.start_date = some sd ∧
        dateToDay 2014 5 2 ≤ sd ∧ sd ≤ dateToDay 2014 6 2 :=
  year_date_range_spec.2.2 [fire0] [pol0] out0 out0_mem

/-- C7 witness: for the concrete scenario pair (start 2014-05-10, reading
2014-05-12) the derived day difference is +2 and the fire month is
May. -/
theorem derive_spec_witness :
    (deriveRow jrow0).date_diff_fire_pollution = some 2 ∧
      (deriveRow jrow0).FIRE_MONTH = some 5 := by
  have h := derive_spec jrow0 16200 16202 rfl rfl
  refine ⟨?_, ?_⟩
  · rw [h.1]
    decide
  · rw [h.2.2.2]
    decide

/-- A pollution CSV row with an unparseable date string. -/
def polBadDate : RawPolRow :=
  { Date_Local_str := some ("not-a-date")
    State := some ("California")
    Final_Latitude := none
    Final_Longitude := none
    CO_AQI := none
    SO2_AQI := none }

/-- A fire row with a null start date. -/
def fireNullDate : FireRow :=
  { Fire_ID := none
    Fire_State := some ("California")
    Fire_County := none
    FIRE_YEAR := some 2014
    start_date := none
    LATITUDE := none
    LONGITUDE := none
    DISCOVERY_DATE := none
    CONT_DATE := none }

/-- A pollution row matching `fireNullDate` on state, with a present
date. -/
def polPresentDate : PolRow :=
  { State := some ("California")
    Date_Local := some 16202
    Final_Latitude := none
    Final_Longitude := none
    CO_AQI := none
    SO2_AQI := none }

/-- C9 witness: an unparseable pollution date becomes null, and a pair
with a null start date is absent from the Correlator output. -/
theorem null_dates_never_join_witness :
    (prepPolRow polBadDate).Date_Local = none ∧
      (fireNullDate, polPresentDate) ∉
        correlate [fireNullDate] [polPresentDate] :=
  ⟨null_dates_never_join.1 polBadDate ("not-a-date") rfl rfl,
    null_dates_never_join.2 [fireNullDate] [polPresentDate]
      fireNullDate polPresentDate (Or.inl rfl)⟩

/-- C10 witness: the concrete scenario output row has matching state
California on both sides. -/
theorem output_state_invariant_witness :
    ∃ s, out0.fire.Fire_State = some s ∧ out0.pol.State = some s ∧
      (s = "Arizona" ∨ s = "California") :=
  output_state_invariant [fire0] [pol0] out0 out0_mem

end FirePollution
